import Mathlib

/-
  Verification of the lymph multi-cause circuit breaker
  (src/lymph/core/circuitbreaker.py) and the connection liveness monitor
  (src/lymph/core/connection.py).

  Modelling conventions:
  * Python dicts are insertion-ordered association lists (`AList`); keys are
    unique in every state built by the operations below.  `d[k] = v` on a
    present key keeps its position (`setKey`), on an absent key appends.
  * The monotonic clock is an explicit `now : Int` argument to every
    time-dependent operation.
  * A tally is `(count, last_time)` with `last_time : Option Int`; Python's
    `None` is `none`.  In `apply_ignore_before`, `status[1] <= ignore_before`
    with `status[1] = None` is treated as true (`None` compares below every
    number), matching the repository's tally invariant and its test suite,
    which require a reset tally to count as absent.
  * `random.choice(xs)` is modelled by an extra argument `r : Nat` selecting
    index `r % xs.length`; quantifying over `r` quantifies over every
    possible draw.
  * Python's `sorted(keys, key=ratings.get)` is a stable ascending sort by
    rating; it is modelled by a stable insertion sort (`stable_sort`), which
    has the same observable contract and is kernel-computable.
  * Fallible dictionary accesses (Python `KeyError`) are modelled with
    `Option` / an explicit `keyError` outcome.
-/

namespace Lymph

abbrev Tally : Type := Nat × Option Int

abbrev AList (β : Type) : Type := List (String × β)

/-- First-match lookup in an association list (Python `d[k]` / `k in d`). -/
def alookup {β : Type} (k : String) : AList β → Option β
  | [] => none
  | (k2, v) :: rest => if k2 = k then some v else alookup k rest

/-- Python `d[k] = v`: replace in place if the key is present, else append. -/
def setKey {β : Type} (k : String) (v : β) : AList β → AList β
  | [] => [(k, v)]
  | (k2, w) :: rest => if k2 = k then (k2, v) :: rest else (k2, w) :: setKey k v rest

/-- Python `d.pop(k)`: drop the (unique) entry for `k`. -/
def eraseKey {β : Type} (k : String) : AList β → AList β
  | [] => []
  | (k2, w) :: rest => if k2 = k then rest else (k2, w) :: eraseKey k rest

/-- Update the value stored at `k` with a fallible function; `none` when the
key is absent (Python raises `KeyError`) or when `f` fails. -/
def modifyEntryO {β : Type} (k : String) (f : β → Option β) : AList β → Option (AList β)
  | [] => none
  | (k2, v) :: rest =>
    if k2 = k then (f v).map (fun v2 => (k2, v2) :: rest)
    else (modifyEntryO k f rest).map (fun r2 => (k2, v) :: r2)

/-- Stable insertion of `a` into a list sorted ascending w.r.t. the strict
order `lt`: `a` goes after every element strictly smaller than it, hence
before every element it ties with (stability). -/
def insertBy {α : Type} (lt : α → α → Bool) (a : α) : List α → List α
  | [] => [a]
  | b :: bs => if lt b a then b :: insertBy lt a bs else a :: b :: bs

/-- Stable ascending sort by the strict order `lt`; models Python's stable
`sorted`. -/
def stable_sort {α : Type} (lt : α → α → Bool) : List α → List α
  | [] => []
  | a :: as => insertBy lt a (stable_sort lt as)

/-- Python dict-comprehension key deduplication: the first occurrence of a
key fixes its position.  (In `select_endpoint` duplicate keys always carry
the same rating, so keeping the first value is observationally the same as
Python's keeping of the last.) -/
def dedupFirstAux : List String → AList Nat → AList Nat
  | _, [] => []
  | seen, (k, v) :: rest =>
    if seen.contains k then dedupFirstAux seen rest
    else (k, v) :: dedupFirstAux (k :: seen) rest

def dedupFirst (l : AList Nat) : AList Nat := dedupFirstAux [] l

/-- Lexicographic (code-point) strict order on character lists; the natural
order of endpoint identifiers used by the specification's tie-break wording. -/
def charListLt : List Char → List Char → Bool
  | [], [] => false
  | [], _ :: _ => true
  | _ :: _, [] => false
  | a :: as, b :: bs =>
    if a.toNat < b.toNat then true
    else if b.toNat < a.toNat then false
    else charListLt as bs

/-- The errors `select_endpoint` can surface: the repository's two exception
types plus Python's `KeyError` for out-of-sync map accesses. -/
inductive PyErr : Type
  | circuitBreakerOpen (reason : String)
  | notConnected (msg : String)
  | keyError
deriving DecidableEq

deriving instance DecidableEq for Except

/-- Breaker state: the four failure tallies and the cleanup stamp
(`MultiCauseCircuitBreaker.__init__`).  The pluggable
`adjust_endpoint_rating` hook is its identity default, inlined at its single
use site. -/
structure Breaker : Type where
  global_fail : Tally
  endpoint_fail : AList Tally
  method_fail : AList Tally
  method_instance_fail : AList (AList Tally)
  last_cleanup : Int
deriving DecidableEq

def MAXIMUM_ERRORS_BEFORE_OPEN : Nat := 7

def COOLDOWN_SECONDS : Int := 60

def OVERPROVISIONING_FACTOR : Nat := 2

def CLEANUP_INTERVAL : Int := 3600

/-- A freshly constructed breaker; `c` is the construction-time clock stored
in `last_cleanup`. -/
def initBreaker (c : Int) : Breaker :=
  { global_fail := (0, none), endpoint_fail := [], method_fail := [],
    method_instance_fail := [], last_cleanup := c }

/-- `add_method(endpoint, method)`: ensure all four tallies exist, at
`(0, None)`; idempotent. -/
def add_method (s : Breaker) (endpoint method : String) : Breaker :=
  let ef := if (alookup endpoint s.endpoint_fail).isSome then s.endpoint_fail
            else s.endpoint_fail ++ [(endpoint, ((0 : Nat), (none : Option Int)))]
  let mf_present := (alookup method s.method_fail).isSome
  let mf := if mf_present then s.method_fail
            else s.method_fail ++ [(method, ((0 : Nat), (none : Option Int)))]
  let mif0 := if mf_present then s.method_instance_fail
              else s.method_instance_fail ++ [(method, ([] : AList Tally))]
  let mif :=
    match alookup method mif0 with
    | none => mif0
    | some inner =>
      if (alookup endpoint inner).isSome then mif0
      else setKey method (inner ++ [(endpoint, ((0 : Nat), (none : Option Int)))]) mif0
  { s with endpoint_fail := ef, method_fail := mf, method_instance_fail := mif }

def bump_tally (now : Int) : Tally → Tally := fun t => (t.1 + 1, some now)

def reset_tally : Tally → Tally := fun _ => (0, none)

/-- `observe_failure(endpoint, method)`: increment all four covering tallies
and stamp them with `now`; `none` when the pair is unregistered (Python
raises `KeyError`). -/
def observe_failure (s : Breaker) (endpoint method : String) (now : Int) : Option Breaker :=
  match modifyEntryO endpoint (fun t => some (bump_tally now t)) s.endpoint_fail,
        modifyEntryO method (fun t => some (bump_tally now t)) s.method_fail,
        modifyEntryO method (modifyEntryO endpoint (fun t => some (bump_tally now t)))
          s.method_instance_fail with
  | some ef, some mf, some mif =>
    some { global_fail := (s.global_fail.1 + 1, some now), endpoint_fail := ef,
           method_fail := mf, method_instance_fail := mif,
           last_cleanup := s.last_cleanup }
  | _, _, _ => none

/-- `observe_success(endpoint, method)`: reset all four covering tallies to
`(0, None)`; `none` when the pair is unregistered. -/
def observe_success (s : Breaker) (endpoint method : String) : Option Breaker :=
  match modifyEntryO endpoint (fun t => some (reset_tally t)) s.endpoint_fail,
        modifyEntryO method (fun t => some (reset_tally t)) s.method_fail,
        modifyEntryO method (modifyEntryO endpoint (fun t => some (reset_tally t)))
          s.method_instance_fail with
  | some ef, some mf, some mif =>
    some { global_fail := (0, none), endpoint_fail := ef, method_fail := mf,
           method_instance_fail := mif, last_cleanup := s.last_cleanup }
  | _, _, _ => none

/-- `apply_ignore_before` from `select_endpoint`: a tally counts only when
its stamp is strictly newer than `ignore_before`; an unset stamp (`None`)
satisfies `status[1] <= ignore_before` and counts as zero. -/
def apply_ignore_before (ignore_before : Int) (status : Tally) : Nat :=
  match status.2 with
  | none => 0
  | some t => if t ≤ ignore_before then 0 else status.1

/-- `sort_key(endpoint_key)`: the worse (larger) of the endpoint tally and
the method-instance tally, after the cooldown filter; `keyError` when either
map lacks the endpoint. -/
def sort_key (ignore_before : Int) (s : Breaker) (inst : AList Tally) (e : String) :
    Except PyErr Nat :=
  match alookup e s.endpoint_fail, alookup e inst with
  | some te, some tme =>
    .ok (max (apply_ignore_before ignore_before te) (apply_ignore_before ignore_before tme))
  | _, _ => .error .keyError

/-- The ratings dict comprehension `{ e: sort_key(e) for e in endpoints }`,
evaluated left to right; the first `KeyError` aborts it. -/
def rate_candidates (ignore_before : Int) (s : Breaker) (inst : AList Tally) :
    List String → Except PyErr (AList Nat)
  | [] => .ok []
  | e :: rest =>
    match sort_key ignore_before s inst e with
    | .error err => .error err
    | .ok v =>
      match rate_candidates ignore_before s inst rest with
      | .error err => .error err
      | .ok tail => .ok ((e, v) :: tail)

/-- `ratings.get` on a key of the ratings map. -/
def ratingGet (ratings : AList Nat) (k : String) : Nat := (alookup k ratings).getD 0

/-- `sorted(ratings.keys(), key=ratings.get)`: stable ascending sort of the
keys by rating. -/
def sorted_endpoints (ratings : AList Nat) : List String :=
  stable_sort (fun a b => decide (ratingGet ratings a < ratingGet ratings b))
    (ratings.map Prod.fst)

/-- `1 + int((n - 1) / OVERPROVISIONING_FACTOR)`: the shortlist width for
`n ≥ 1` candidates. -/
def shortlist_cut (n : Nat) : Nat := 1 + (n - 1) / OVERPROVISIONING_FACTOR

/-- The candidate set: the `endpoints` argument when provided and non-empty,
else the endpoints registered under the method. -/
def candidates_of (inst : AList Tally) : Option (List String) → List String
  | none => inst.map Prod.fst
  | some l => if l.isEmpty then inst.map Prod.fst else l

/-- The decision part of `select_endpoint` (everything after the cleanup
check), on the current breaker state. -/
def select_from (s : Breaker) (method : String) (endpoints : Option (List String))
    (now : Int) (r : Nat) : Except PyErr String :=
  let ignore_before := now - COOLDOWN_SECONDS
  if apply_ignore_before ignore_before s.global_fail > MAXIMUM_ERRORS_BEFORE_OPEN then
    .error (.circuitBreakerOpen "global failure rate too high")
  else
    match alookup method s.method_fail with
    | none => .error (.notConnected ("no endpoints configured for method: " ++ method))
    | some method_tally =>
      if apply_ignore_before ignore_before method_tally > MAXIMUM_ERRORS_BEFORE_OPEN then
        .error (.circuitBreakerOpen ("method failure rate too high for method " ++ method))
      else
        match alookup method s.method_instance_fail with
        | none => .error .keyError
        | some inst =>
          match rate_candidates ignore_before s inst (candidates_of inst endpoints) with
          | .error err => .error err
          | .ok rlist =>
            let ratings := dedupFirst rlist
            if ratings.isEmpty then
              .error (.notConnected ("no endpoints available for method: " ++ method))
            else
              let sortedE := sorted_endpoints ratings
              let short := sortedE.take (shortlist_cut sortedE.length)
              match short.get? (r % short.length) with
              | none => .error .keyError
              | some endpoint =>
                match alookup endpoint s.endpoint_fail with
                | none => .error .keyError
                | some te =>
                  if apply_ignore_before ignore_before te > MAXIMUM_ERRORS_BEFORE_OPEN then
                    .error (.circuitBreakerOpen
                      ("endpoint failure rate too high for endpoint " ++ endpoint))
                  else
                    match alookup endpoint inst with
                    | none => .error .keyError
                    | some tme =>
                      if apply_ignore_before ignore_before tme >
                          MAXIMUM_ERRORS_BEFORE_OPEN then
                        .error (.circuitBreakerOpen
                          ("method instance failure rate too high for (endpoint, method) = ("
                            ++ endpoint ++ ", " ++ method ++ ")"))
                      else .ok endpoint

/-- `_cleanup`: sweep every per-scope tally whose stamp is older than
`now - CLEANUP_INTERVAL` or unset, dropping a method from
`method_instance_fail` when its instance map empties; the global tally is
never swept; `last_cleanup` is stamped.  Key iteration is over a snapshot,
as Python 2 `dict.keys()` gives (the spec's noted quirk). -/
def cleanup (s : Breaker) (now : Int) : Breaker :=
  let cleanup_before := now - CLEANUP_INTERVAL
  let fresh : Tally → Bool := fun t => !(decide (t.2.getD 0 < cleanup_before))
  let sweep_method : AList (AList Tally) → String → AList (AList Tally) := fun mif m =>
    match alookup m mif with
    | none => mif
    | some inner =>
      let filtered := inner.filter (fun p => fresh p.2)
      if filtered.isEmpty && !inner.isEmpty then eraseKey m mif
      else setKey m filtered mif
  { global_fail := s.global_fail,
    endpoint_fail := s.endpoint_fail.filter (fun p => fresh p.2),
    method_fail := s.method_fail.filter (fun p => fresh p.2),
    method_instance_fail := (s.method_fail.map Prod.fst).foldl sweep_method
      s.method_instance_fail,
    last_cleanup := now }

/-- `select_endpoint(method, endpoints)`: run the cleanup sweep when due,
then decide on the (possibly swept) state; returns that state alongside the
outcome. -/
def select_endpoint (s : Breaker) (method : String) (endpoints : Option (List String))
    (now : Int) (r : Nat) : Breaker × Except PyErr String :=
  let s1 := if s.last_cleanup < now - CLEANUP_INTERVAL then cleanup s now else s
  (s1, select_from s1 method endpoints now r)

/-- Iterated `observe_failure` on a fixed pair, one call per listed time. -/
def observe_failures (endpoint method : String) (s : Breaker) : List Int → Option Breaker
  | [] => some s
  | t :: ts =>
    match observe_failure s endpoint method t with
    | none => none
    | some s2 => observe_failures endpoint method s2 ts

/-- Connection liveness states (`lymph/core/connection.py` module constants). -/
inductive ConnStatus : Type
  | unknown
  | responsive
  | unresponsive
  | closed
  | idle
deriving DecidableEq

/-- Liveness-monitor state: thresholds, timestamps, counters and status
(`Connection.__init__`).  `disconnect_count` counts the
`server.disconnect(endpoint)` calls issued by `close`, so that idempotence
of the transport disconnect is expressible; the heartbeat sample window and
phi score are outside the modelled operations. -/
structure Conn : Type where
  timeout : Int
  heartbeat_interval : Int
  idle_timeout : Int
  unresponsive_disconnect : Int
  idle_disconnect : Int
  last_seen : Int
  last_message : Int
  last_status_change : Int
  status : ConnStatus
  received_message_count : Nat
  sent_message_count : Nat
  disconnect_count : Nat
deriving DecidableEq

/-- `set_status(status)`: stamp `last_status_change` only on an actual
change, then assign. -/
def set_status (now : Int) (st : ConnStatus) (c : Conn) : Conn :=
  { c with status := st,
           last_status_change := if st ≠ c.status then now else c.last_status_change }

/-- `close()`: no-op when already closed; otherwise assign `CLOSED` directly
(not via `set_status`) and request the transport disconnect. -/
def close (c : Conn) : Conn :=
  if c.status = ConnStatus.closed then c
  else { c with status := ConnStatus.closed, disconnect_count := c.disconnect_count + 1 }

/-- `update_status()`: no-op while `last_seen` is unset (still `0`);
otherwise the first matching transition wins. -/
def update_status (now : Int) (c : Conn) : Conn :=
  if c.last_seen ≠ 0 then
    if c.status = ConnStatus.unresponsive ∧
        now - c.last_status_change ≥ c.unresponsive_disconnect then close c
    else if now - c.last_seen ≥ c.timeout then set_status now ConnStatus.unresponsive c
    else if c.status = ConnStatus.idle ∧
        now - c.last_status_change ≥ c.idle_disconnect then close c
    else if now - c.last_message ≥ c.idle_timeout then set_status now ConnStatus.idle c
    else set_status now ConnStatus.responsive c
  else c

/-- `on_recv(msg)`: stamp `last_seen`; stamp `last_message` unless the frame
is idle chatter; count it.  `idle_chatter` is `msg.is_idle_chatter()`. -/
def on_recv (now : Int) (idle_chatter : Bool) (c : Conn) : Conn :=
  { c with last_seen := now,
           last_message := if idle_chatter then c.last_message else now,
           received_message_count := c.received_message_count + 1 }

/-- `on_send(msg)`: stamp `last_message` unless the frame is idle chatter;
count it. -/
def on_send (now : Int) (idle_chatter : Bool) (c : Conn) : Conn :=
  { c with last_message := if idle_chatter then c.last_message else now,
           sent_message_count := c.sent_message_count + 1 }

/-- One iteration of `live_check_loop`: the loop's guard runs `update_status`
only while the status is not `CLOSED` (`log_stats` does not change state). -/
def live_check_tick (now : Int) (c : Conn) : Conn :=
  if c.status = ConnStatus.closed then c else update_status now c

/-! ### Association-list helper lemmas -/

theorem modifyEntryO_spec {β : Type} {k : String} {f : β → Option β} {v v2 : β}
    {l : AList β} (hl : alookup k l = some v) (hf : f v = some v2) :
    ∃ l2, modifyEntryO k f l = some l2 ∧ alookup k l2 = some v2 ∧
      (∀ k3, k3 ≠ k → alookup k3 l2 = alookup k3 l) ∧
      l2.map Prod.fst = l.map Prod.fst := by
  induction l with
  | nil => simp [alookup] at hl
  | cons hd tl ih =>
    obtain ⟨k2, w⟩ := hd
    by_cases hk : k2 = k
    · subst hk
      rw [alookup, if_pos rfl] at hl
      obtain rfl : w = v := by injection hl
      refine ⟨(k2, v2) :: tl, ?_, ?_, ?_, ?_⟩
      · rw [modifyEntryO, if_pos rfl, hf]; rfl
      · rw [alookup, if_pos rfl]
      · intro k3 h3
        rw [alookup, alookup, if_neg (fun h => h3 h.symm), if_neg (fun h => h3 h.symm)]
      · rfl
    · rw [alookup, if_neg hk] at hl
      obtain ⟨l2, hmod, hself, hother, hkeys⟩ := ih hl
      refine ⟨(k2, w) :: l2, ?_, ?_, ?_, ?_⟩
      · rw [modifyEntryO, if_neg hk, hmod]; rfl
      · rw [alookup, if_neg hk]; exact hself
      · intro k3 h3
        rw [alookup, alookup]
        by_cases h23 : k2 = k3
        · rw [if_pos h23, if_pos h23]
        · rw [if_neg h23, if_neg h23]; exact hother k3 h3
      · simpa using hkeys

theorem singleton_keys {β : Type} {l : AList β} {e : String}
    (h : l.map Prod.fst = [e]) : ∃ v, l = [(e, v)] := by
  match l with
  | [] => simp at h
  | (k, v) :: rest =>
    simp only [List.map_cons, List.cons.injEq] at h
    obtain ⟨rfl, hrest⟩ := h
    have : rest = [] := by
      cases rest with
      | nil => rfl
      | cons a b => simp at hrest
    exact ⟨v, by rw [this]⟩

/-! ### C10 — `on_send` frame effect -/

/-- C10: `on_send` increments `sent_message_count` by exactly one and stamps
`last_message` with `now` exactly when the message is not idle chatter; it
leaves `last_seen`, `status`, `last_status_change` and
`received_message_count` unchanged, and only `on_recv` stamps `last_seen`. -/
theorem on_send_frame (c : Conn) (now : Int) (idle_chatter : Bool) :
    (on_send now idle_chatter c).sent_message_count = c.sent_message_count + 1 ∧
    (on_send now idle_chatter c).last_message =
      (if idle_chatter then c.last_message else now) ∧
    (on_send now idle_chatter c).last_seen = c.last_seen ∧
    (on_send now idle_chatter c).status = c.status ∧
    (on_send now idle_chatter c).last_status_change = c.last_status_change ∧
    (on_send now idle_chatter c).received_message_count = c.received_message_count ∧
    (on_recv now idle_chatter c).last_seen = now := by
  simp [on_send, on_recv]

/-! ### C7 — CLOSED terminal, close idempotent -/

/-- A baseline monitor state with the constructor's default thresholds. -/
def connBase : Conn :=
  { timeout := 1, heartbeat_interval := 1, idle_timeout := 10,
    unresponsive_disconnect := 30, idle_disconnect := 60, last_seen := 0,
    last_message := 0, last_status_change := 0, status := ConnStatus.unknown,
    received_message_count := 0, sent_message_count := 0, disconnect_count := 0 }

/-- A closed monitor that has seen traffic: `update_status` applied to it
leaves `CLOSED` again. -/
def closedStale : Conn :=
  { connBase with status := ConnStatus.closed, last_seen := 1, last_message := 1,
                  disconnect_count := 1 }

/-- C7 counterexample: calling the raw `update_status` operation on a CLOSED
monitor whose peer has been silent for at least `timeout` re-opens it to
UNRESPONSIVE, so CLOSED is not terminal under the operation `update_status`
as the claim states. -/
theorem update_status_on_closed_cex :
    closedStale.status = ConnStatus.closed ∧
    (update_status 100 closedStale).status = ConnStatus.unresponsive ∧
    (update_status 100 closedStale).status ≠ ConnStatus.closed := by
  refine ⟨rfl, rfl, ?_⟩
  decide

/-- C7 (amended): CLOSED is terminal for `on_recv`, `on_send`, `close` and
the status loop's tick (which enters `update_status` only while the status
is not CLOSED); a second `close()` is a no-op and does not invoke the
transport disconnect again.  The raw `update_status` operation is excluded:
on a CLOSED state with a stale `last_seen` it assigns UNRESPONSIVE (see the
counterexample), but the status loop never invokes it in that state. -/
theorem closed_terminal (c : Conn) (now : Int) (idle_chatter : Bool)
    (h : c.status = ConnStatus.closed) :
    (on_recv now idle_chatter c).status = ConnStatus.closed ∧
    (on_send now idle_chatter c).status = ConnStatus.closed ∧
    close c = c ∧
    live_check_tick now c = c := by
  refine ⟨?_, ?_, ?_, ?_⟩ <;> simp [on_recv, on_send, close, live_check_tick, h]

theorem closed_terminal_witness :
    (on_recv 5 false closedStale).status = ConnStatus.closed ∧
    (on_send 5 false closedStale).status = ConnStatus.closed ∧
    close closedStale = closedStale ∧
    live_check_tick 5 closedStale = closedStale :=
  closed_terminal closedStale 5 false rfl

/-! ### C6 — `update_status` transition table -/

/-- C6: on a non-CLOSED monitor with `last_seen` set, a single
`update_status` applies exactly the first matching row of the transition
table: (1) UNRESPONSIVE past `unresponsive_disconnect` closes (via `close`,
which does not stamp `last_status_change`); (2) silence past `timeout` sets
UNRESPONSIVE; (3) IDLE past `idle_disconnect` closes; (4) no application
message for `idle_timeout` sets IDLE; (5) otherwise RESPONSIVE; the
`set_status` rows stamp `last_status_change` with `now` exactly when the
assigned status differs from the current one. -/
theorem update_status_transition_table (c : Conn) (now : Int)
    (hstatus : c.status ≠ ConnStatus.closed) (hseen : c.last_seen ≠ 0) :
    (c.status = ConnStatus.unresponsive →
     now - c.last_status_change ≥ c.unresponsive_disconnect →
      update_status now c = close c ∧
      (update_status now c).status = ConnStatus.closed ∧
      (update_status now c).last_status_change = c.last_status_change ∧
      (update_status now c).disconnect_count = c.disconnect_count + 1) ∧
    (¬(c.status = ConnStatus.unresponsive ∧
       now - c.last_status_change ≥ c.unresponsive_disconnect) →
     now - c.last_seen ≥ c.timeout →
      update_status now c = set_status now ConnStatus.unresponsive c ∧
      (update_status now c).status = ConnStatus.unresponsive ∧
      (update_status now c).last_status_change =
        (if c.status = ConnStatus.unresponsive then c.last_status_change else now) ∧
      (update_status now c).disconnect_count = c.disconnect_count) ∧
    (¬(c.status = ConnStatus.unresponsive ∧
       now - c.last_status_change ≥ c.unresponsive_disconnect) →
     ¬(now - c.last_seen ≥ c.timeout) →
     c.status = ConnStatus.idle → now - c.last_status_change ≥ c.idle_disconnect →
      update_status now c = close c ∧
      (update_status now c).status = ConnStatus.closed ∧
      (update_status now c).last_status_change = c.last_status_change ∧
      (update_status now c).disconnect_count = c.disconnect_count + 1) ∧
    (¬(c.status = ConnStatus.unresponsive ∧
       now - c.last_status_change ≥ c.unresponsive_disconnect) →
     ¬(now - c.last_seen ≥ c.timeout) →
     ¬(c.status = ConnStatus.idle ∧ now - c.last_status_change ≥ c.idle_disconnect) →
     now - c.last_message ≥ c.idle_timeout →
      update_status now c = set_status now ConnStatus.idle c ∧
      (update_status now c).status = ConnStatus.idle ∧
      (update_status now c).last_status_change =
        (if c.status = ConnStatus.idle then c.last_status_change else now) ∧
      (update_status now c).disconnect_count = c.disconnect_count) ∧
    (¬(c.status = ConnStatus.unresponsive ∧
       now - c.last_status_change ≥ c.unresponsive_disconnect) →
     ¬(now - c.last_seen ≥ c.timeout) →
     ¬(c.status = ConnStatus.idle ∧ now - c.last_status_change ≥ c.idle_disconnect) →
     ¬(now - c.last_message ≥ c.idle_timeout) →
      update_status now c = set_status now ConnStatus.responsive c ∧
      (update_status now c).status = ConnStatus.responsive ∧
      (update_status now c).last_status_change =
        (if c.status = ConnStatus.responsive then c.last_status_change else now) ∧
      (update_status now c).disconnect_count = c.disconnect_count) := by
  have hclose_status : ∀ h2 : c.status ≠ ConnStatus.closed,
      (close c).status = ConnStatus.closed ∧
      (close c).last_status_change = c.last_status_change ∧
      (close c).disconnect_count = c.disconnect_count + 1 := by
    intro h2
    rw [close, if_neg h2]
    exact ⟨rfl, rfl, rfl⟩
  refine ⟨?_, ?_, ?_, ?_, ?_⟩
  · intro h1 h2
    rw [update_status, if_pos hseen, if_pos ⟨h1, h2⟩]
    exact ⟨rfl, (hclose_status hstatus).1, (hclose_status hstatus).2.1,
           (hclose_status hstatus).2.2⟩
  · intro h1 h2
    rw [update_status, if_pos hseen, if_neg h1, if_pos h2]
    refine ⟨rfl, rfl, ?_, rfl⟩
    rw [set_status]
    by_cases hc : c.status = ConnStatus.unresponsive
    · simp [hc]
    · simp [hc, Ne.symm hc]
  · intro h1 h2 h3 h4
    rw [update_status, if_pos hseen, if_neg h1, if_neg h2, if_pos ⟨h3, h4⟩]
    exact ⟨rfl, (hclose_status hstatus).1, (hclose_status hstatus).2.1,
           (hclose_status hstatus).2.2⟩
  · intro h1 h2 h3 h4
    rw [update_status, if_pos hseen, if_neg h1, if_neg h2, if_neg h3, if_pos h4]
    refine ⟨rfl, rfl, ?_, rfl⟩
    rw [set_status]
    by_cases hc : c.status = ConnStatus.idle
    · simp [hc]
    · simp [hc, Ne.symm hc]
  · intro h1 h2 h3 h4
    rw [update_status, if_pos hseen, if_neg h1, if_neg h2, if_neg h3, if_neg h4]
    refine ⟨rfl, rfl, ?_, rfl⟩
    rw [set_status]
    by_cases hc : c.status = ConnStatus.responsive
    · simp [hc]
    · simp [hc, Ne.symm hc]

/-- A fresh monitor that has seen one message. -/
def connSeen : Conn := { connBase with last_seen := 1, last_message := 1 }

theorem update_status_transition_table_witness :
    (connSeen.status = ConnStatus.unresponsive →
     5 - connSeen.last_status_change ≥ connSeen.unresponsive_disconnect →
      update_status 5 connSeen = close connSeen ∧
      (update_status 5 connSeen).status = ConnStatus.closed ∧
      (update_status 5 connSeen).last_status_change = connSeen.last_status_change ∧
      (update_status 5 connSeen).disconnect_count = connSeen.disconnect_count + 1) ∧
    (¬(connSeen.status = ConnStatus.unresponsive ∧
       5 - connSeen.last_status_change ≥ connSeen.unresponsive_disconnect) →
     5 - connSeen.last_seen ≥ connSeen.timeout →
      update_status 5 connSeen = set_status 5 ConnStatus.unresponsive connSeen ∧
      (update_status 5 connSeen).status = ConnStatus.unresponsive ∧
      (update_status 5 connSeen).last_status_change =
        (if connSeen.status = ConnStatus.unresponsive then connSeen.last_status_change
         else 5) ∧
      (update_status 5 connSeen).disconnect_count = connSeen.disconnect_count) ∧
    (¬(connSeen.status = ConnStatus.unresponsive ∧
       5 - connSeen.last_status_change ≥ connSeen.unresponsive_disconnect) →
     ¬(5 - connSeen.last_seen ≥ connSeen.timeout) →
     connSeen.status = ConnStatus.idle →
     5 - connSeen.last_status_change ≥ connSeen.idle_disconnect →
      update_status 5 connSeen = close connSeen ∧
      (update_status 5 connSeen).status = ConnStatus.closed ∧
      (update_status 5 connSeen).last_status_change = connSeen.last_status_change ∧
      (update_status 5 connSeen).disconnect_count = connSeen.disconnect_count + 1) ∧
    (¬(connSeen.status = ConnStatus.unresponsive ∧
       5 - connSeen.last_status_change ≥ connSeen.unresponsive_disconnect) →
     ¬(5 - connSeen.last_seen ≥ connSeen.timeout) →
     ¬(connSeen.status = ConnStatus.idle ∧
       5 - connSeen.last_status_change ≥ connSeen.idle_disconnect) →
     5 - connSeen.last_message ≥ connSeen.idle_timeout →
      update_status 5 connSeen = set_status 5 ConnStatus.idle connSeen ∧
      (update_status 5 connSeen).status = ConnStatus.idle ∧
      (update_status 5 connSeen).last_status_change =
        (if connSeen.status = ConnStatus.idle then connSeen.last_status_change else 5) ∧
      (update_status 5 connSeen).disconnect_count = connSeen.disconnect_count) ∧
    (¬(connSeen.status = ConnStatus.unresponsive ∧
       5 - connSeen.last_status_change ≥ connSeen.unresponsive_disconnect) →
     ¬(5 - connSeen.last_seen ≥ connSeen.timeout) →
     ¬(connSeen.status = ConnStatus.idle ∧
       5 - connSeen.last_status_change ≥ connSeen.idle_disconnect) →
     ¬(5 - connSeen.last_message ≥ connSeen.idle_timeout) →
      update_status 5 connSeen = set_status 5 ConnStatus.responsive connSeen ∧
      (update_status 5 connSeen).status = ConnStatus.responsive ∧
      (update_status 5 connSeen).last_status_change =
        (if connSeen.status = ConnStatus.responsive then connSeen.last_status_change
         else 5) ∧
      (update_status 5 connSeen).disconnect_count = connSeen.disconnect_count) :=
  update_status_transition_table connSeen 5 (by decide) (by decide)

/-! ### C3 — cleanup sweep diverges from the test contract -/

/-- The breaker of the cleanup scenario: fresh at clock 0, `(A, 1)`
registered, one failure at clock 0. -/
def c3_state : Breaker :=
  { global_fail := (1, some 0), endpoint_fail := [("A", (1, some 0))],
    method_fail := [("1", (1, some 0))],
    method_instance_fail := [("1", [("A", (1, some 0))])], last_cleanup := 0 }

/-- C3 (code bug): in the `test_cleanup` scenario — register `(A, 1)`, one
failure, advance the clock by 99,999 s — `select_endpoint('1')` does run the
cleanup sweep and empties all three tally maps, but the sweep also removes
the method registration itself, so the call then raises
`NotConnected("no endpoints configured for method: 1")` instead of
returning `A` as both the claim and the repository's own
`test_cleanup` assert. -/
theorem cleanup_sweep_divergence :
    observe_failure (add_method (initBreaker 0) "A" "1") "A" "1" 0 = some c3_state ∧
    (select_endpoint c3_state "1" none 99999 0).2 =
      Except.error (PyErr.notConnected "no endpoints configured for method: 1") ∧
    (select_endpoint c3_state "1" none 99999 0).2 ≠ Except.ok "A" ∧
    (select_endpoint c3_state "1" none 99999 0).1.endpoint_fail = [] ∧
    (select_endpoint c3_state "1" none 99999 0).1.method_fail = [] ∧
    (select_endpoint c3_state "1" none 99999 0).1.method_instance_fail = [] := by
  refine ⟨rfl, rfl, ?_, rfl, rfl, rfl⟩
  decide

/-! ### `observe_success` computation (shared by C9 and C2) -/

theorem observe_success_spec {s : Breaker} {e m : String} {te tm tme : Tally}
    {inst : AList Tally}
    (he : alookup e s.endpoint_fail = some te)
    (hm : alookup m s.method_fail = some tm)
    (hmi : alookup m s.method_instance_fail = some inst)
    (hie : alookup e inst = some tme) :
    ∃ ef mf mif inst2,
      observe_success s e m = some
        { global_fail := (0, none), endpoint_fail := ef, method_fail := mf,
          method_instance_fail := mif, last_cleanup := s.last_cleanup } ∧
      alookup e ef = some (0, none) ∧
      (∀ k, k ≠ e → alookup k ef = alookup k s.endpoint_fail) ∧
      ef.map Prod.fst = s.endpoint_fail.map Prod.fst ∧
      alookup m mf = some (0, none) ∧
      (∀ k, k ≠ m → alookup k mf = alookup k s.method_fail) ∧
      alookup m mif = some inst2 ∧
      (∀ k, k ≠ m → alookup k mif = alookup k s.method_instance_fail) ∧
      alookup e inst2 = some (0, none) ∧
      (∀ k, k ≠ e → alookup k inst2 = alookup k inst) ∧
      inst2.map Prod.fst = inst.map Prod.fst := by
  obtain ⟨ef, hef, hefl, hefo, hefk⟩ :=
    modifyEntryO_spec (f := fun t => some (reset_tally t)) he rfl
  obtain ⟨mf, hmf, hmfl, hmfo, _⟩ :=
    modifyEntryO_spec (f := fun t => some (reset_tally t)) hm rfl
  obtain ⟨inst2, hin, hinl, hino, hink⟩ :=
    modifyEntryO_spec (f := fun t => some (reset_tally t)) hie rfl
  obtain ⟨mif, hmif, hmifl, hmifo, _⟩ :=
    modifyEntryO_spec (f := modifyEntryO e (fun t => some (reset_tally t))) hmi hin
  refine ⟨ef, mf, mif, inst2, ?_, hefl, hefo, hefk, hmfl, hmfo, hmifl, hmifo,
    hinl, hino, hink⟩
  rw [observe_success, hef, hmf, hmif]

/-! ### C9 — `observe_success` resets exactly the four covering tallies -/

/-- C9: for a registered pair `(e, m)`, `observe_success` sets the global
tally, `endpoint_fail[e]`, `method_fail[m]` and
`method_instance_fail[m][e]` to `(0, unset)` — including the global tally —
and leaves every other endpoint's, method's and method-instance's tally
unchanged. -/
theorem observe_success_resets_and_frames (s : Breaker) (e m : String)
    (te tm tme : Tally) (inst : AList Tally)
    (he : alookup e s.endpoint_fail = some te)
    (hm : alookup m s.method_fail = some tm)
    (hmi : alookup m s.method_instance_fail = some inst)
    (hie : alookup e inst = some tme) :
    ∃ s2, observe_success s e m = some s2 ∧
      s2.global_fail = (0, none) ∧
      alookup e s2.endpoint_fail = some (0, none) ∧
      alookup m s2.method_fail = some (0, none) ∧
      (∃ inst2, alookup m s2.method_instance_fail = some inst2 ∧
        alookup e inst2 = some (0, none) ∧
        (∀ e2, e2 ≠ e → alookup e2 inst2 = alookup e2 inst)) ∧
      (∀ e2, e2 ≠ e → alookup e2 s2.endpoint_fail = alookup e2 s.endpoint_fail) ∧
      (∀ m2, m2 ≠ m → alookup m2 s2.method_fail = alookup m2 s.method_fail) ∧
      (∀ m2, m2 ≠ m →
        alookup m2 s2.method_instance_fail = alookup m2 s.method_instance_fail) ∧
      s2.last_cleanup = s.last_cleanup := by
  obtain ⟨ef, mf, mif, inst2, hobs, hefl, hefo, _, hmfl, hmfo, hmifl, hmifo,
    hinl, hino, _⟩ := observe_success_spec he hm hmi hie
  exact ⟨_, hobs, rfl, hefl, hmfl, ⟨inst2, hmifl, hinl, hino⟩, hefo, hmfo, hmifo, rfl⟩

/-- A breaker with two registered pairs and live tallies, for the C9 and C2
witnesses. -/
def c9_state : Breaker :=
  { global_fail := (3, some 9), endpoint_fail := [("A", (2, some 9)), ("B", (1, some 8))],
    method_fail := [("a", (2, some 9)), ("b", (1, some 8))],
    method_instance_fail := [("a", [("A", (2, some 9))]), ("b", [("B", (1, some 8))])],
    last_cleanup := 0 }

theorem observe_success_resets_and_frames_witness :
    ∃ s2, observe_success c9_state "A" "a" = some s2 ∧
      s2.global_fail = (0, none) ∧
      alookup "A" s2.endpoint_fail = some (0, none) ∧
      alookup "a" s2.method_fail = some (0, none) ∧
      (∃ inst2, alookup "a" s2.method_instance_fail = some inst2 ∧
        alookup "A" inst2 = some (0, none) ∧
        (∀ e2, e2 ≠ "A" → alookup e2 inst2 = alookup e2 [("A", ((2 : Nat), some 9))])) ∧
      (∀ e2, e2 ≠ "A" → alookup e2 s2.endpoint_fail = alookup e2 c9_state.endpoint_fail) ∧
      (∀ m2, m2 ≠ "a" → alookup m2 s2.method_fail = alookup m2 c9_state.method_fail) ∧
      (∀ m2, m2 ≠ "a" →
        alookup m2 s2.method_instance_fail = alookup m2 c9_state.method_instance_fail) ∧
      s2.last_cleanup = c9_state.last_cleanup :=
  observe_success_resets_and_frames c9_state "A" "a" (2, some 9) (2, some 9) (2, some 9)
    [("A", (2, some 9))] rfl rfl rfl rfl

/-! ### C2 — success followed by selection -/

theorem dedupFirst_singleton (k : String) (v : Nat) : dedupFirst [(k, v)] = [(k, v)] := rfl

theorem sorted_endpoints_singleton (k : String) (n : Nat) :
    sorted_endpoints [(k, n)] = [k] := rfl

theorem shortlist_cut_one : shortlist_cut 1 = 1 := rfl

/-- C2 (amended): for every breaker state and registered pair `(e, m)` with
`e` the only candidate endpoint of `m`, and any prior failure history,
`observe_success(e, m)` followed immediately by `select_endpoint(m)` returns
`e` — provided the second call does not trigger the cleanup sweep
(`last_cleanup ≥ now − CLEANUP_INTERVAL`).  Without that proviso the sweep
deletes the freshly reset `(0, unset)` tallies together with the method
registration and the call raises `NotConnected` (see the counterexample). -/
theorem success_then_select_returns (s : Breaker) (e m : String) (te tm : Tally)
    (inst : AList Tally) (now : Int) (r : Nat)
    (he : alookup e s.endpoint_fail = some te)
    (hm : alookup m s.method_fail = some tm)
    (hmi : alookup m s.method_instance_fail = some inst)
    (hsingle : inst.map Prod.fst = [e])
    (hclean : ¬ s.last_cleanup < now - CLEANUP_INTERVAL) :
    ∃ s2, observe_success s e m = some s2 ∧
      select_endpoint s2 m none now r = (s2, Except.ok e) := by
  obtain ⟨v, rfl⟩ := singleton_keys hsingle
  have hie : alookup e [(e, v)] = some v := by rw [alookup, if_pos rfl]
  obtain ⟨ef, mf, mif, inst2, hobs, hefl, hefo, hefk, hmfl, hmfo, hmifl, hmifo,
    hinl, hino, hink⟩ := observe_success_spec he hm hmi hie
  have hink2 : inst2.map Prod.fst = [e] := by simpa using hink
  obtain ⟨w, hw⟩ := singleton_keys hink2
  rw [hw] at hmifl hinl
  have hwv : w = (0, none) := by
    rw [alookup, if_pos rfl] at hinl
    injection hinl
  subst hwv
  refine ⟨_, hobs, ?_⟩
  rw [select_endpoint, if_neg hclean]
  have hsel : select_from
      { global_fail := (0, none), endpoint_fail := ef, method_fail := mf,
        method_instance_fail := mif, last_cleanup := s.last_cleanup } m none now r =
      Except.ok e := by
    rw [select_from]
    simp only [hmfl, hmifl, hefl, apply_ignore_before, candidates_of, rate_candidates,
      sort_key, alookup, dedupFirst_singleton, sorted_endpoints_singleton,
      shortlist_cut_one, List.map, Nat.max_self, Nat.mod_one]
    simp [hefl, dedupFirst_singleton, sorted_endpoints_singleton, shortlist_cut_one,
      Nat.mod_one, alookup]
  exact congrArg _ hsel

theorem success_then_select_returns_witness :
    ∃ s2, observe_success c9_state "A" "a" = some s2 ∧
      select_endpoint s2 "a" none 10 3 = (s2, Except.ok "A") :=
  success_then_select_returns c9_state "A" "a" (2, some 9) (2, some 9)
    [("A", (2, some 9))] 10 3 rfl rfl rfl rfl (by decide)

/-- The breaker right after `add_method('A','a'); observe_success('A','a')`
on a breaker constructed at clock 0. -/
def c2_state : Breaker :=
  { global_fail := (0, none), endpoint_fail := [("A", (0, none))],
    method_fail := [("a", (0, none))],
    method_instance_fail := [("a", [("A", (0, none))])], last_cleanup := 0 }

/-- C2 counterexample: with `A` the only candidate for `a`, a success
followed immediately by `select_endpoint('a')` at clock 99,999 (construction
at clock 0, so the cleanup sweep triggers) raises `NotConnected` instead of
returning `A`: the sweep drops the `(0, unset)` tallies and the method
registration with them.  So the claim's "for every breaker state" fails. -/
theorem success_then_select_cleanup_cex :
    observe_success (add_method (initBreaker 0) "A" "a") "A" "a" = some c2_state ∧
    (select_endpoint c2_state "a" none 99999 0).2 =
      Except.error (PyErr.notConnected "no endpoints configured for method: a") ∧
    (select_endpoint c2_state "a" none 99999 0).2 ≠ Except.ok "A" := by
  refine ⟨rfl, rfl, ?_⟩
  decide

/-! ### C1 — thresholds on a single registered pair -/

/-- The breaker reachable from a fresh instance (constructed at clock `c`)
by `add_method('A','a')` followed by any run of `observe_failure('A','a')`
calls: all four tallies agree on the failure count and the last stamp. -/
def simpleState (c : Int) (k : Nat) (tl : Option Int) : Breaker :=
  { global_fail := (k, tl), endpoint_fail := [("A", (k, tl))],
    method_fail := [("a", (k, tl))],
    method_instance_fail := [("a", [("A", (k, tl))])], last_cleanup := c }

theorem add_method_fresh (c : Int) :
    add_method (initBreaker c) "A" "a" = simpleState c 0 none := rfl

theorem observe_failure_simple (c : Int) (k : Nat) (tl : Option Int) (t : Int) :
    observe_failure (simpleState c k tl) "A" "a" t =
      some (simpleState c (k + 1) (some t)) := rfl

/-- The stamp left by a run of failures at the listed times. -/
def lastTime (tl : Option Int) : List Int → Option Int
  | [] => tl
  | t :: ts => lastTime (some t) ts

theorem observe_failures_simple (ts : List Int) (c : Int) (k : Nat) (tl : Option Int) :
    observe_failures "A" "a" (simpleState c k tl) ts =
      some (simpleState c (k + ts.length) (lastTime tl ts)) := by
  induction ts generalizing k tl with
  | nil => simp [observe_failures, lastTime]
  | cons t ts ih =>
    rw [observe_failures, observe_failure_simple]
    show observe_failures "A" "a" (simpleState c (k + 1) (some t)) ts =
      some (simpleState c (k + (t :: ts).length) (lastTime tl (t :: ts)))
    rw [ih (k + 1) (some t)]
    have hlen : k + 1 + ts.length = k + (t :: ts).length := by
      simp [List.length_cons]; omega
    rw [hlen]
    rfl

theorem lastTime_mem (ts : List Int) (tl : Option Int) (h : ts ≠ []) :
    ∃ t, lastTime tl ts = some t ∧ t ∈ ts := by
  induction ts generalizing tl with
  | nil => exact absurd rfl h
  | cons t ts ih =>
    cases ts with
    | nil => exact ⟨t, rfl, List.mem_singleton.mpr rfl⟩
    | cons t2 ts2 =>
      obtain ⟨u, hu, hmem⟩ := ih (some t) (by simp)
      exact ⟨u, hu, List.mem_cons_of_mem _ hmem⟩

/-- A within-cooldown stamp survives the cleanup sweep unchanged
(`COOLDOWN_SECONDS < CLEANUP_INTERVAL`). -/
theorem cleanup_simple (c now : Int) (k : Nat) (t : Int)
    (h : now - COOLDOWN_SECONDS < t) :
    cleanup (simpleState c k (some t)) now = simpleState now k (some t) := by
  have hnd : ¬ (t < now - CLEANUP_INTERVAL) := by
    simp only [COOLDOWN_SECONDS, CLEANUP_INTERVAL] at h ⊢
    omega
  simp [cleanup, simpleState, hnd, setKey, alookup, Option.getD]

theorem select_from_simple (c now t : Int) (k : Nat) (r : Nat)
    (h : now - COOLDOWN_SECONDS < t) :
    select_from (simpleState c k (some t)) "a" none now r =
      (if MAXIMUM_ERRORS_BEFORE_OPEN < k then
        Except.error (PyErr.circuitBreakerOpen "global failure rate too high")
      else Except.ok "A") := by
  have happ : apply_ignore_before (now - COOLDOWN_SECONDS) (k, some t) = k := by
    rw [apply_ignore_before]
    exact if_neg (by omega)
  have hts : ¬ (t ≤ now - COOLDOWN_SECONDS) := by omega
  by_cases hk : MAXIMUM_ERRORS_BEFORE_OPEN < k
  · rw [if_pos hk]
    simp [select_from, simpleState, apply_ignore_before, hts, hk]
  · rw [if_neg hk]
    simp [select_from, simpleState, apply_ignore_before, hts, hk, alookup,
      candidates_of, rate_candidates, sort_key, dedupFirst, dedupFirstAux,
      sorted_endpoints, stable_sort, insertBy, shortlist_cut, ratingGet,
      Nat.mod_one, OVERPROVISIONING_FACTOR]

/-- C1 (amended): on a breaker with the single registered pair `(A, a)`, no
successes, and `k ≥ 1` failures all within `COOLDOWN_SECONDS` of the
`select_endpoint` call: `k ≤ MAXIMUM_ERRORS_BEFORE_OPEN` gives back `A` and
`k > MAXIMUM_ERRORS_BEFORE_OPEN` raises `CircuitBreakerOpen` (the global
tier trips first).  The claim's `k = 0` case is excluded: when the call also
triggers the cleanup sweep, the sweep deletes the idle `(0, unset)` tallies
and their method registration and the call raises `NotConnected` (see the
counterexample). -/
theorem single_pair_failure_thresholds (c now : Int) (ts : List Int) (r : Nat)
    (s : Breaker)
    (hrun : observe_failures "A" "a" (add_method (initBreaker c) "A" "a") ts = some s)
    (hrecent : ∀ t ∈ ts, now - COOLDOWN_SECONDS < t)
    (hpos : ts ≠ []) :
    (ts.length ≤ MAXIMUM_ERRORS_BEFORE_OPEN →
      (select_endpoint s "a" none now r).2 = Except.ok "A") ∧
    (MAXIMUM_ERRORS_BEFORE_OPEN < ts.length →
      (select_endpoint s "a" none now r).2 =
        Except.error (PyErr.circuitBreakerOpen "global failure rate too high")) := by
  rw [add_method_fresh, observe_failures_simple] at hrun
  obtain ⟨t, hlt, htm⟩ := lastTime_mem ts none hpos
  rw [hlt] at hrun
  obtain rfl : simpleState c ts.length (some t) = s := by
    injection hrun with h2
    simpa using h2
  have hrec := hrecent t htm
  have hsel : ∀ c2 : Int,
      select_from (simpleState c2 ts.length (some t)) "a" none now r =
      (if MAXIMUM_ERRORS_BEFORE_OPEN < ts.length then
        Except.error (PyErr.circuitBreakerOpen "global failure rate too high")
      else Except.ok "A") := fun c2 => select_from_simple c2 now t ts.length r hrec
  have hstate : (select_endpoint (simpleState c ts.length (some t)) "a" none now r) =
      (if c < now - CLEANUP_INTERVAL then simpleState now ts.length (some t)
       else simpleState c ts.length (some t),
       if MAXIMUM_ERRORS_BEFORE_OPEN < ts.length then
        Except.error (PyErr.circuitBreakerOpen "global failure rate too high")
       else Except.ok "A") := by
    rw [select_endpoint]
    by_cases hc : c < now - CLEANUP_INTERVAL
    · rw [if_pos hc, if_pos (show (simpleState c ts.length (some t)).last_cleanup <
        now - CLEANUP_INTERVAL from hc), cleanup_simple c now ts.length t hrec, hsel]
    · rw [if_neg hc, if_neg (show ¬ (simpleState c ts.length (some t)).last_cleanup <
        now - CLEANUP_INTERVAL from hc), hsel]
  constructor
  · intro hle
    rw [hstate]
    simp only []
    rw [if_neg (by omega)]
  · intro hgt
    rw [hstate]
    simp only []
    rw [if_pos hgt]

theorem single_pair_failure_thresholds_witness :
    (select_endpoint (simpleState 0 1 (some 100)) "a" none 110 0).2 = Except.ok "A" :=
  (single_pair_failure_thresholds 0 110 [100] 0 (simpleState 0 1 (some 100))
    rfl (by decide) (by decide)).1 (by decide)

/-- C1 counterexample: the claim as stated also covers `k = 0` failures
(`k ≤ 7` is supposed to give back `A`), but on a breaker registered at
clock 0 and queried at clock 99,999 the cleanup sweep removes the idle
registration first and `select_endpoint` raises `NotConnected` instead of
returning `A`. -/
theorem single_pair_zero_failures_cex :
    observe_failures "A" "a" (add_method (initBreaker 0) "A" "a") [] =
      some (add_method (initBreaker 0) "A" "a") ∧
    (List.length ([] : List Int) ≤ MAXIMUM_ERRORS_BEFORE_OPEN) ∧
    (select_endpoint (add_method (initBreaker 0) "A" "a") "a" none 99999 0).2 =
      Except.error (PyErr.notConnected "no endpoints configured for method: a") ∧
    (select_endpoint (add_method (initBreaker 0) "A" "a") "a" none 99999 0).2 ≠
      Except.ok "A" := by
  refine ⟨rfl, by decide, rfl, by decide⟩

/-! ### Inversion of `select_from` (shared by C4, C5 and C8) -/

theorem sort_key_error {ib : Int} {s : Breaker} {inst : AList Tally} {e : String}
    {err : PyErr} (h : sort_key ib s inst e = .error err) : err = .keyError := by
  rw [sort_key] at h
  split at h
  · exact Except.noConfusion h
  · injection h with h2
    exact h2.symm

theorem rate_candidates_error {ib : Int} {s : Breaker} {inst : AList Tally}
    {l : List String} {err : PyErr} (h : rate_candidates ib s inst l = .error err) :
    err = .keyError := by
  induction l with
  | nil => exact Except.noConfusion h
  | cons e rest ih =>
    rw [rate_candidates] at h
    split at h
    · injection h with h2
      subst h2
      exact sort_key_error (by assumption)
    · split at h
      · injection h with h2
        subst h2
        exact ih (by assumption)
      · exact Except.noConfusion h

/-- Inverting a successful `select_from`: the returned endpoint passed both
post-selection trip checks on the deciding state. -/
theorem select_from_ok_inv {s : Breaker} {m : String} {cand : Option (List String)}
    {now : Int} {r : Nat} {e : String}
    (h : select_from s m cand now r = Except.ok e) :
    ∃ te tme inst,
      alookup m s.method_instance_fail = some inst ∧
      alookup e s.endpoint_fail = some te ∧
      apply_ignore_before (now - COOLDOWN_SECONDS) te ≤ MAXIMUM_ERRORS_BEFORE_OPEN ∧
      alookup e inst = some tme ∧
      apply_ignore_before (now - COOLDOWN_SECONDS) tme ≤ MAXIMUM_ERRORS_BEFORE_OPEN := by
  rw [select_from] at h
  split at h
  · exact Except.noConfusion h
  split at h
  · exact Except.noConfusion h
  split at h
  · exact Except.noConfusion h
  split at h
  · exact Except.noConfusion h
  rename_i inst hmif
  split at h
  · exact Except.noConfusion h
  simp only [] at h
  split at h
  · exact Except.noConfusion h
  split at h
  · exact Except.noConfusion h
  split at h
  · exact Except.noConfusion h
  rename_i te hte
  split at h
  · exact Except.noConfusion h
  rename_i hnte
  split at h
  · exact Except.noConfusion h
  rename_i tme htme
  split at h
  · exact Except.noConfusion h
  rename_i hntme
  injection h with h2
  subst h2
  exact ⟨te, tme, inst, hmif, hte, Nat.not_lt.mp hnte, htme, Nat.not_lt.mp hntme⟩

/-- Inverting a failed `select_from`: every surfaced error is one of the
seven literal outcomes of the code. -/
theorem select_from_error_inv {s : Breaker} {m : String} {cand : Option (List String)}
    {now : Int} {r : Nat} {err : PyErr}
    (h : select_from s m cand now r = Except.error err) :
    err = PyErr.circuitBreakerOpen "global failure rate too high" ∨
    err = PyErr.notConnected ("no endpoints configured for method: " ++ m) ∨
    err = PyErr.circuitBreakerOpen ("method failure rate too high for method " ++ m) ∨
    err = PyErr.notConnected ("no endpoints available for method: " ++ m) ∨
    (∃ e2, err = PyErr.circuitBreakerOpen
      ("endpoint failure rate too high for endpoint " ++ e2)) ∨
    (∃ e2, err = PyErr.circuitBreakerOpen
      ("method instance failure rate too high for (endpoint, method) = ("
        ++ e2 ++ ", " ++ m ++ ")")) ∨
    err = PyErr.keyError := by
  rw [select_from] at h
  split at h
  · injection h with h2
    exact Or.inl h2.symm
  split at h
  · injection h with h2
    exact Or.inr (Or.inl h2.symm)
  split at h
  · injection h with h2
    exact Or.inr (Or.inr (Or.inl h2.symm))
  split at h
  · injection h with h2
    exact Or.inr (Or.inr (Or.inr (Or.inr (Or.inr (Or.inr h2.symm)))))
  split at h
  · rename_i err2 hrate
    injection h with h2
    subst h2
    exact Or.inr (Or.inr (Or.inr (Or.inr (Or.inr
      (Or.inr (rate_candidates_error hrate))))))
  simp only [] at h
  split at h
  · injection h with h2
    exact Or.inr (Or.inr (Or.inr (Or.inl h2.symm)))
  split at h
  · injection h with h2
    exact Or.inr (Or.inr (Or.inr (Or.inr (Or.inr (Or.inr h2.symm)))))
  rename_i ep hep
  split at h
  · injection h with h2
    exact Or.inr (Or.inr (Or.inr (Or.inr (Or.inr (Or.inr h2.symm)))))
  split at h
  · injection h with h2
    exact Or.inr (Or.inr (Or.inr (Or.inr (Or.inl ⟨ep, h2.symm⟩))))
  split at h
  · injection h with h2
    exact Or.inr (Or.inr (Or.inr (Or.inr (Or.inr (Or.inr h2.symm)))))
  split at h
  · injection h with h2
    exact Or.inr (Or.inr (Or.inr (Or.inr (Or.inr (Or.inl ⟨ep, h2.symm⟩)))))
  exact Except.noConfusion h

/-! ### C4 — the breaker never dispatches to a tripped endpoint -/

/-- C4: whenever `select_endpoint` returns an endpoint `e` for method `m`
instead of raising, then — on the state the decision was taken on, i.e.
after any cleanup sweep — the effective (within-cooldown) counts of both
`endpoint_fail[e]` and `method_instance_fail[m][e]` are at most
`MAXIMUM_ERRORS_BEFORE_OPEN`: the post-selection checks guarantee no
dispatch to a tripped endpoint, even when the shortlist has a single
entry. -/
theorem select_never_returns_tripped (s : Breaker) (m : String)
    (cand : Option (List String)) (now : Int) (r : Nat) (s2 : Breaker) (e : String)
    (h : select_endpoint s m cand now r = (s2, Except.ok e)) :
    ∃ te tme inst,
      alookup e s2.endpoint_fail = some te ∧
      apply_ignore_before (now - COOLDOWN_SECONDS) te ≤ MAXIMUM_ERRORS_BEFORE_OPEN ∧
      alookup m s2.method_instance_fail = some inst ∧
      alookup e inst = some tme ∧
      apply_ignore_before (now - COOLDOWN_SECONDS) tme ≤ MAXIMUM_ERRORS_BEFORE_OPEN := by
  rw [select_endpoint] at h
  simp only [Prod.mk.injEq] at h
  obtain ⟨hs2, hsf⟩ := h
  subst hs2
  obtain ⟨te, tme, inst, hmif, hte, h1, htme, h2⟩ := select_from_ok_inv hsf
  exact ⟨te, tme, inst, hte, h1, hmif, htme, h2⟩

theorem select_never_returns_tripped_witness :
    ∃ te tme inst,
      alookup "A" c9_state.endpoint_fail = some te ∧
      apply_ignore_before (10 - COOLDOWN_SECONDS) te ≤ MAXIMUM_ERRORS_BEFORE_OPEN ∧
      alookup "a" c9_state.method_instance_fail = some inst ∧
      alookup "A" inst = some tme ∧
      apply_ignore_before (10 - COOLDOWN_SECONDS) tme ≤ MAXIMUM_ERRORS_BEFORE_OPEN :=
  select_never_returns_tripped c9_state "a" none 10 0 c9_state "A" rfl

/-! ### C8 — error payloads -/

/-- C8 (amended): every `CircuitBreakerOpen` that `select_endpoint` raises
carries one of the four tier-identifying reason strings exactly as the code
formats them — "global failure rate too high",
"method failure rate too high for method <m>",
"endpoint failure rate too high for endpoint <e>",
"method instance failure rate too high for (endpoint, method) = (<e>, <m>)"
— not the claim's literal "global" / "method:<m>" / "endpoint:<e>" /
"method-instance:(<e>,<m>)" forms (see the counterexample); and every
`NotConnected` carries one of the two method-identifying messages. -/
theorem breaker_error_strings (s : Breaker) (m : String) (cand : Option (List String))
    (now : Int) (r : Nat) (s2 : Breaker) :
    (∀ reason, select_endpoint s m cand now r =
        (s2, Except.error (PyErr.circuitBreakerOpen reason)) →
      reason = "global failure rate too high" ∨
      reason = "method failure rate too high for method " ++ m ∨
      (∃ e, reason = "endpoint failure rate too high for endpoint " ++ e) ∨
      (∃ e, reason = "method instance failure rate too high for (endpoint, method) = ("
        ++ e ++ ", " ++ m ++ ")")) ∧
    (∀ msg, select_endpoint s m cand now r =
        (s2, Except.error (PyErr.notConnected msg)) →
      msg = "no endpoints configured for method: " ++ m ∨
      msg = "no endpoints available for method: " ++ m) := by
  constructor
  · intro reason h
    rw [select_endpoint] at h
    simp only [Prod.mk.injEq] at h
    obtain ⟨hs2, hsf⟩ := h
    rcases select_from_error_inv hsf with h1 | h1 | h1 | h1 | ⟨e2, h1⟩ | ⟨e2, h1⟩ | h1
    · injection h1 with h2
      exact Or.inl h2
    · exact PyErr.noConfusion h1
    · injection h1 with h2
      exact Or.inr (Or.inl h2)
    · exact PyErr.noConfusion h1
    · injection h1 with h2
      exact Or.inr (Or.inr (Or.inl ⟨e2, h2⟩))
    · injection h1 with h2
      exact Or.inr (Or.inr (Or.inr ⟨e2, h2⟩))
    · exact PyErr.noConfusion h1
  · intro msg h
    rw [select_endpoint] at h
    simp only [Prod.mk.injEq] at h
    obtain ⟨hs2, hsf⟩ := h
    rcases select_from_error_inv hsf with h1 | h1 | h1 | h1 | ⟨e2, h1⟩ | ⟨e2, h1⟩ | h1
    · exact PyErr.noConfusion h1
    · injection h1 with h2
      exact Or.inl h2
    · exact PyErr.noConfusion h1
    · injection h1 with h2
      exact Or.inr h2
    · exact PyErr.noConfusion h1
    · exact PyErr.noConfusion h1
    · exact PyErr.noConfusion h1

theorem breaker_error_strings_witness :
    "global failure rate too high" = "global failure rate too high" ∨
    "global failure rate too high" = "method failure rate too high for method " ++ "a" ∨
    (∃ e, "global failure rate too high" =
      "endpoint failure rate too high for endpoint " ++ e) ∨
    (∃ e, "global failure rate too high" =
      "method instance failure rate too high for (endpoint, method) = ("
        ++ e ++ ", " ++ "a" ++ ")") :=
  (breaker_error_strings (simpleState 0 8 (some 5)) "a" none 10 0
    (simpleState 0 8 (some 5))).1 "global failure rate too high" rfl

/-- C8 counterexample: after eight failures on the single pair `(A, a)` a
`select_endpoint` call a few seconds later trips the global tier; the
exception's reason string is "global failure rate too high", which is not
the claim's exact string "global". -/
theorem reason_string_format_cex :
    observe_failures "A" "a" (add_method (initBreaker 0) "A" "a")
      [5, 5, 5, 5, 5, 5, 5, 5] = some (simpleState 0 8 (some 5)) ∧
    (select_endpoint (simpleState 0 8 (some 5)) "a" none 10 0).2 =
      Except.error (PyErr.circuitBreakerOpen "global failure rate too high") ∧
    "global failure rate too high" ≠ "global" := by
  refine ⟨rfl, rfl, ?_⟩
  decide

/-! ### C5 — load-spread shortlist membership and tie-breaking -/

theorem mem_insertBy {α : Type} (lt : α → α → Bool) (a x : α) (l : List α) :
    x ∈ insertBy lt a l ↔ x = a ∨ x ∈ l := by
  induction l with
  | nil => simp [insertBy]
  | cons b bs ih =>
    rw [insertBy]
    split
    · simp only [List.mem_cons, ih]
      tauto
    · simp only [List.mem_cons]

theorem mem_stable_sort {α : Type} (lt : α → α → Bool) (x : α) (l : List α) :
    x ∈ stable_sort lt l ↔ x ∈ l := by
  induction l with
  | nil => simp [stable_sort]
  | cons a as ih =>
    rw [stable_sort, mem_insertBy]
    simp [ih]

theorem insertBy_pairwise {α : Type} (f : α → Nat) (a : α) (l : List α)
    (hl : l.Pairwise (fun x y => f x ≤ f y)) :
    (insertBy (fun x y => decide (f x < f y)) a l).Pairwise (fun x y => f x ≤ f y) := by
  induction l with
  | nil => simp [insertBy]
  | cons b bs ih =>
    rw [List.pairwise_cons] at hl
    obtain ⟨hb, hbs⟩ := hl
    rw [insertBy]
    split
    · rename_i hba
      simp only [decide_eq_true_eq] at hba
      rw [List.pairwise_cons]
      refine ⟨?_, ih hbs⟩
      intro x hx
      rcases (mem_insertBy _ a x bs).mp hx with rfl | hxbs
      · exact Nat.le_of_lt hba
      · exact hb x hxbs
    · rename_i hba
      simp only [decide_eq_true_eq] at hba
      have hab : f a ≤ f b := Nat.not_lt.mp hba
      rw [List.pairwise_cons]
      refine ⟨?_, List.pairwise_cons.mpr ⟨hb, hbs⟩⟩
      intro x hx
      rcases List.mem_cons.mp hx with rfl | hxbs
      · exact hab
      · exact Nat.le_trans hab (hb x hxbs)

theorem stable_sort_pairwise {α : Type} (f : α → Nat) (l : List α) :
    (stable_sort (fun a b => decide (f a < f b)) l).Pairwise (fun x y => f x ≤ f y) := by
  induction l with
  | nil => simp [stable_sort]
  | cons a as ih => exact insertBy_pairwise f a _ ih

theorem sorted_endpoints_pairwise (ratings : AList Nat) :
    (sorted_endpoints ratings).Pairwise
      (fun x y => ratingGet ratings x ≤ ratingGet ratings y) :=
  stable_sort_pairwise (ratingGet ratings) (ratings.map Prod.fst)

/-- Inverting a successful `select_from` at the shortlist step: the returned
endpoint came from the `shortlist_cut`-wide prefix of the stably sorted
rating map. -/
theorem select_from_ok_shortlist {s : Breaker} {m : String} {cand : Option (List String)}
    {now : Int} {r : Nat} {e : String}
    (h : select_from s m cand now r = Except.ok e) :
    ∃ inst rlist,
      alookup m s.method_instance_fail = some inst ∧
      rate_candidates (now - COOLDOWN_SECONDS) s inst (candidates_of inst cand) =
        Except.ok rlist ∧
      dedupFirst rlist ≠ [] ∧
      e ∈ (sorted_endpoints (dedupFirst rlist)).take
        (shortlist_cut (sorted_endpoints (dedupFirst rlist)).length) := by
  rw [select_from] at h
  split at h
  · exact Except.noConfusion h
  split at h
  · exact Except.noConfusion h
  split at h
  · exact Except.noConfusion h
  split at h
  · exact Except.noConfusion h
  rename_i inst hmif
  split at h
  · exact Except.noConfusion h
  rename_i rlist hrate
  simp only [] at h
  split at h
  · exact Except.noConfusion h
  rename_i hne
  split at h
  · exact Except.noConfusion h
  rename_i ep hep
  split at h
  · exact Except.noConfusion h
  split at h
  · exact Except.noConfusion h
  split at h
  · exact Except.noConfusion h
  split at h
  · exact Except.noConfusion h
  injection h with h2
  subst h2
  exact ⟨inst, rlist, hmif, hrate, fun hh => hne (by rw [hh]; rfl), List.get?_mem hep⟩

/-- C5 (amended): whenever `select_endpoint` returns `e`, then on the
deciding state the rating map was computed by `rate_candidates` (with the
first occurrence of each key kept), and for every outcome of the random
draw `e` lies in the first `1 + ⌊(N−1)/OVERPROVISIONING_FACTOR⌋` entries of
the order sorted stably ascending by rating — ties broken by the rating
map's insertion (iteration) order, not by the natural order of the endpoint
identifier as the claim states (see the counterexample); with `N = 1` the
unique endpoint is chosen. -/
theorem select_within_shortlist (s : Breaker) (m : String) (cand : Option (List String))
    (now : Int) (r : Nat) (s2 : Breaker) (e : String)
    (h : select_endpoint s m cand now r = (s2, Except.ok e)) :
    ∃ inst rlist,
      alookup m s2.method_instance_fail = some inst ∧
      rate_candidates (now - COOLDOWN_SECONDS) s2 inst (candidates_of inst cand) =
        Except.ok rlist ∧
      dedupFirst rlist ≠ [] ∧
      e ∈ (sorted_endpoints (dedupFirst rlist)).take
        (shortlist_cut (sorted_endpoints (dedupFirst rlist)).length) ∧
      e ∈ (dedupFirst rlist).map Prod.fst ∧
      (sorted_endpoints (dedupFirst rlist)).Pairwise
        (fun a b => ratingGet (dedupFirst rlist) a ≤ ratingGet (dedupFirst rlist) b) ∧
      ((dedupFirst rlist).length = 1 → (dedupFirst rlist).map Prod.fst = [e]) := by
  rw [select_endpoint] at h
  simp only [Prod.mk.injEq] at h
  obtain ⟨hs2, hsf⟩ := h
  subst hs2
  obtain ⟨inst, rlist, hmif, hrate, hne, hmem⟩ := select_from_ok_shortlist hsf
  have hmem2 : e ∈ (dedupFirst rlist).map Prod.fst := by
    have h3 : e ∈ sorted_endpoints (dedupFirst rlist) := List.take_subset _ _ hmem
    rw [sorted_endpoints, mem_stable_sort] at h3
    exact h3
  refine ⟨inst, rlist, hmif, hrate, hne, hmem, hmem2,
    sorted_endpoints_pairwise (dedupFirst rlist), ?_⟩
  intro hlen
  obtain ⟨p, hp⟩ := List.length_eq_one.mp hlen
  obtain ⟨k, v⟩ := p
  rw [hp] at hmem ⊢
  rw [sorted_endpoints_singleton] at hmem
  simp only [List.length_singleton, shortlist_cut_one] at hmem
  simp at hmem
  rw [hmem]
  rfl

/-- The tie-break scenario: `(B, m)` registered before `(A, m)`, no
failures, so both endpoints tie at rating 0 and the shortlist keeps only
the first of the two. -/
def s_tie : Breaker := add_method (add_method (initBreaker 0) "B" "m") "A" "m"

theorem select_within_shortlist_witness :
    ∃ inst rlist,
      alookup "m" s_tie.method_instance_fail = some inst ∧
      rate_candidates (0 - COOLDOWN_SECONDS) s_tie inst (candidates_of inst none) =
        Except.ok rlist ∧
      dedupFirst rlist ≠ [] ∧
      "B" ∈ (sorted_endpoints (dedupFirst rlist)).take
        (shortlist_cut (sorted_endpoints (dedupFirst rlist)).length) ∧
      "B" ∈ (dedupFirst rlist).map Prod.fst ∧
      (sorted_endpoints (dedupFirst rlist)).Pairwise
        (fun a b => ratingGet (dedupFirst rlist) a ≤ ratingGet (dedupFirst rlist) b) ∧
      ((dedupFirst rlist).length = 1 → (dedupFirst rlist).map Prod.fst = ["B"]) :=
  select_within_shortlist s_tie "m" none 0 0 s_tie "B" rfl

/-- The selection order the specification's words describe: ascending by
rating with ties broken by the natural (code-point lexicographic) order of
the endpoint identifier.  Written from the spec, for comparison with the
code's `sorted_endpoints`. -/
def spec_tie_order (ratings : AList Nat) : List String :=
  stable_sort (fun a b =>
    decide (ratingGet ratings a < ratingGet ratings b) ||
    (ratingGet ratings a == ratingGet ratings b && charListLt a.data b.data))
    (ratings.map Prod.fst)

/-- C5 counterexample: with `B` registered before `A` and both tied at
rating 0, the code's stable sort keeps the insertion order `[B, A]`, the
2-endpoint shortlist is the single endpoint `B`, and `select_endpoint`
returns `B` — which is not among the first
`1 + ⌊(N−1)/OVERPROVISIONING_FACTOR⌋ = 1` endpoints of the claim's
natural-identifier-tie-break order `[A, B]`. -/
theorem tie_break_natural_order_cex :
    (select_endpoint s_tie "m" none 0 0).2 = Except.ok "B" ∧
    rate_candidates (0 - COOLDOWN_SECONDS) s_tie [("B", (0, none)), ("A", (0, none))]
      ["B", "A"] = Except.ok [("B", 0), ("A", 0)] ∧
    sorted_endpoints [("B", 0), ("A", 0)] = ["B", "A"] ∧
    spec_tie_order [("B", 0), ("A", 0)] = ["A", "B"] ∧
    shortlist_cut (spec_tie_order [("B", 0), ("A", 0)]).length = 1 ∧
    "B" ∉ (spec_tie_order [("B", 0), ("A", 0)]).take 1 := by
  refine ⟨rfl, rfl, rfl, ?_, ?_, ?_⟩
  · rfl
  · rfl
  · decide

end Lymph
